import Mathlib

/-!
Verification of the traffic-lane-controller repository: a Flask server
(`src/server.py`) exposing a `POST /predict` endpoint over a pre-trained
traffic classifier, and an offline training script (`src/train_model.py`).

The server handler is embedded as a pure function over an environment
holding the artifacts loaded at startup (scaler parameters, label-encoder
classes, and the model, kept abstract as a function from the scaled
feature vector to a probability vector).  Numeric values are rationals;
the training script's trigonometric encodings use real numbers.
-/

namespace Traffic

/-- Python `round(x, nd)` on exact rationals: round half to even at the
`nd`-th decimal place.  (`server.py` lines 89 and 94 round the confidence
to 2 decimals and the scaled count to 1 decimal.) -/
def roundHalfEven (x : ℚ) : ℤ :=
  let n := ⌊x⌋
  let r := x - (n : ℚ)
  if r < 1 / 2 then n
  else if 1 / 2 < r then n + 1
  else if n % 2 = 0 then n else n + 1

/-- `round(x, nd)` as a rational. -/
def pyRound (x : ℚ) (nd : ℕ) : ℚ :=
  (roundHalfEven (x * 10 ^ nd) : ℚ) / 10 ^ nd

/-- Python `int(q)`: truncation toward zero. -/
def pyInt (q : ℚ) : ℤ :=
  if 0 ≤ q then ⌊q⌋ else ⌈q⌉

/-- `np.argmax`: index of the first maximal element (accumulator pass:
current index, best index so far, best value so far). -/
def argmaxGo : List ℚ → ℕ → ℕ → ℚ → ℕ
  | [], _, best, _ => best
  | x :: xs, i, best, bv =>
      if bv < x then argmaxGo xs (i + 1) i x else argmaxGo xs (i + 1) best bv

/-- `np.argmax` over a probability vector (0 on the empty list, which the
server never produces). -/
def argmaxIdx : List ℚ → ℕ
  | [] => 0
  | x :: xs => argmaxGo xs 1 0 x

/-- A fitted `StandardScaler` as serialized to `scaler.pkl`: per-feature
centering (`mean_`) and divisor (`scale_`). -/
structure Scaler where
  mean : List ℚ
  scale : List ℚ
deriving Repr, DecidableEq

/-- `scaler.transform` on a single row: per-feature `(x - mean) / scale`. -/
def Scaler.transformRow (s : Scaler) (xs : List ℚ) : List ℚ :=
  (xs.zip (s.mean.zip s.scale)).map (fun p => (p.1 - p.2.1) / p.2.2)

/-- `scaler.transform` on a matrix of rows. -/
def Scaler.transformAll (s : Scaler) (rows : List (List ℚ)) : List (List ℚ) :=
  rows.map s.transformRow

/-- Artifacts loaded at server startup (`server.py` lines 12-15): the
scaler, the label encoder's class list and the model.  The keras model is
opaque to this code, so it is an abstract function from the scaled feature
row to a probability vector. -/
structure ServerEnv where
  scaler : Scaler
  classes : List String
  model : List ℚ → List ℚ

/-- `label_encoder.inverse_transform([k])[0]`: the class name at index `k`. -/
def labelDecode (classes : List String) (k : ℕ) : String :=
  classes.getD k ""

/-- The fixed demo hour (`server.py` line 38: `current_hour = 17`). -/
def current_hour : ℤ := 17

/-- The fixed demo weekday (`server.py` line 39: `current_day = 4`). -/
def current_day : ℤ := 4

/-- `server.py` line 46: `1 if 7 <= current_hour <= 9 else 0`. -/
def srvMorningRush (hour : ℤ) : ℤ :=
  if 7 ≤ hour ∧ hour ≤ 9 then 1 else 0

/-- `server.py` line 47: `1 if 16 <= current_hour <= 19 else 0`. -/
def srvEveningRush (hour : ℤ) : ℤ :=
  if 16 ≤ hour ∧ hour ≤ 19 then 1 else 0

/-- `server.py` line 48: `1 if current_hour >= 22 or current_hour < 4 else 0`. -/
def srvNight (hour : ℤ) : ℤ :=
  if 22 ≤ hour ∨ hour < 4 then 1 else 0

/-- `server.py` line 49: `1 if current_day >= 5 else 0`. -/
def srvWeekend (day : ℤ) : ℤ :=
  if 5 ≤ day then 1 else 0

/-- The feature row the server builds for inference (`server.py` lines
57-65): `[scaled_total, current_hour, current_day, is_morning_rush,
is_evening_rush, is_night, is_weekend]`, with `scaled_total =
total_count * 14.5` and the hour and day fixed to 17 and 4. -/
def serverFeatures (total_count : ℚ) : List ℚ :=
  [ total_count * 14.5,
    (current_hour : ℚ),
    (current_day : ℚ),
    (srvMorningRush current_hour : ℚ),
    (srvEveningRush current_hour : ℚ),
    (srvNight current_hour : ℚ),
    (srvWeekend current_day : ℚ) ]

/-- The exact row the model receives: the feature row after
`scaler.transform` (`server.py` line 67). -/
def modelInput (env : ServerEnv) (total_count : ℚ) : List ℚ :=
  env.scaler.transformRow (serverFeatures total_count)

/-- The parsed JSON payload of a `/predict` request: the `counts` list
plus optional time context, which the handler never reads. -/
structure PredictRequest where
  counts : List ℚ
  hourCtx : Option ℕ := none
  dayCtx : Option ℕ := none

/-- The successful JSON response body (`server.py` lines 87-101). -/
structure PredictResponse where
  prediction : String
  confidence : ℚ
  open_lane : Bool
  raw_count : ℤ
  scaled_count : ℚ
  hour : ℤ
  day_of_week : ℤ
  is_morning_rush : Bool
  is_evening_rush : Bool
  is_weekend : Bool
deriving Repr, DecidableEq

/-- A JSON response body: an error object or a success object. -/
inductive RespBody where
  | err (msg : String)
  | success (r : PredictResponse)
deriving Repr, DecidableEq

/-- An HTTP response: status code and JSON body. -/
structure HttpResponse where
  status : ℕ
  body : RespBody
deriving Repr, DecidableEq

/-- Builds the 200 response from the model's probability vector and the
raw count (`server.py` lines 72-101): argmax class, decoded label,
`should_open = prediction in ['heavy', 'high']`, rounded confidence, and
the stats block with the fixed hour/day indicators. -/
def okResponse (env : ServerEnv) (predictions : List ℚ) (total_count : ℚ) :
    PredictResponse :=
  let predicted_class := argmaxIdx predictions
  let confidence := predictions.getD predicted_class 0 * 100
  let prediction := labelDecode env.classes predicted_class
  let should_open := prediction = "heavy" ∨ prediction = "high"
  { prediction := prediction
    confidence := pyRound confidence 2
    open_lane := decide should_open
    raw_count := pyInt total_count
    scaled_count := pyRound (total_count * 14.5) 1
    hour := current_hour
    day_of_week := current_day
    is_morning_rush := srvMorningRush current_hour ≠ 0
    is_evening_rush := srvEveningRush current_hour ≠ 0
    is_weekend := srvWeekend current_day ≠ 0 }

/-- The body of the `try` block of the `/predict` handler (`server.py`
lines 27-101): reject a counts list whose length is not 1 with a 400,
otherwise scale the count, build the features, standardize them, run the
model and return the 200 response. -/
def predictBody (env : ServerEnv) (req : PredictRequest) : HttpResponse :=
  if req.counts.length ≠ 1 then
    ⟨400, .err "Expected 1 vehicle count"⟩
  else
    let total_count := req.counts.headD 0
    let predictions := env.model (modelInput env total_count)
    ⟨200, .success (okResponse env predictions total_count)⟩

/-- The whole `/predict` handler including the `try/except` wrapper
(`server.py` lines 24 and 103-106): an exception raised while handling
the request (e.g. a payload with no `counts` key) becomes a 500 with the
error string; otherwise the `try` body's response is returned. -/
def predictHandler (env : ServerEnv) (raw : Except String PredictRequest) :
    HttpResponse :=
  match raw with
  | .error e => ⟨500, .err e⟩
  | .ok req => predictBody env req

/-- The server's whole mutable state: the objects loaded at startup
(`model`, `scaler`, `label_encoder`, `model_config`).  `model_config` is
only printed, so it is kept as an opaque tag. -/
structure ServerState where
  env : ServerEnv
  model_config : List (String × String)

/-- The handler in state-passing form: `server.py`'s `predict` assigns to
no module-level name, so the state after a request is the state before. -/
def predictStep (st : ServerState) (raw : Except String PredictRequest) :
    HttpResponse × ServerState :=
  (predictHandler st.env raw, st)

/-- Serving a sequence of requests: thread the state through
`predictStep`, collecting the responses. -/
def serve (st : ServerState) :
    List (Except String PredictRequest) → List HttpResponse × ServerState
  | [] => ([], st)
  | r :: rs =>
      let p := predictStep st r
      let q := serve p.2 rs
      (p.1 :: q.1, q.2)

end Traffic

namespace Train

/-! ## Training script (`src/train_model.py`)

`train_model.py` imports threshold constants from a `config` module that
is not part of the sources; the constants used by `create_time_features`
are modelled from the spec, consistent with the thresholds hard-coded in
`server.py`. -/

/-- Modelled from the spec: `config.RUSH_HOUR_MORNING`, the missing
`config` module's morning-rush hour range ("morning rush 7-9"). -/
def RUSH_HOUR_MORNING : ℤ × ℤ := (7, 9)

/-- Modelled from the spec: `config.RUSH_HOUR_EVENING`, the missing
`config` module's evening-rush hour range ("evening rush 16-19"). -/
def RUSH_HOUR_EVENING : ℤ × ℤ := (16, 19)

/-- Modelled from the spec: `config.NIGHT_TIME`, the missing `config`
module's night bounds ("night >=22 or <4-6 depending on variant"; this
variant's server hard-codes `>= 22 or < 4`). -/
def NIGHT_TIME : ℤ × ℤ := (22, 4)

/-- The four boolean indicator features of `create_time_features`
(`train_model.py` lines 31-37), as 0/1 floats, at a single
(hour, day) point. -/
def trainMorningRush (hour : ℤ) : ℚ :=
  if RUSH_HOUR_MORNING.1 ≤ hour ∧ hour ≤ RUSH_HOUR_MORNING.2 then 1 else 0

/-- `is_evening_rush` of `create_time_features`. -/
def trainEveningRush (hour : ℤ) : ℚ :=
  if RUSH_HOUR_EVENING.1 ≤ hour ∧ hour ≤ RUSH_HOUR_EVENING.2 then 1 else 0

/-- `is_night` of `create_time_features`. -/
def trainNight (hour : ℤ) : ℚ :=
  if NIGHT_TIME.1 ≤ hour ∨ hour < NIGHT_TIME.2 then 1 else 0

/-- `is_weekend` of `create_time_features`. -/
def trainWeekend (day : ℤ) : ℚ :=
  if 5 ≤ day then 1 else 0

/-- The record of features produced by `create_time_features`
(`train_model.py` lines 25-38) at a single (hour, day) point. -/
structure TimeFeatures where
  hour_sin : ℝ
  hour_cos : ℝ
  day_sin : ℝ
  day_cos : ℝ
  is_morning_rush : ℚ
  is_evening_rush : ℚ
  is_night : ℚ
  is_weekend : ℚ

/-- `create_time_features(hour, day_of_week)` (`train_model.py` lines
25-38) at a single point: cyclical sin/cos encodings of hour (period 24)
and day (period 7), plus the four 0/1 indicators. -/
noncomputable def create_time_features (hour day_of_week : ℤ) : TimeFeatures :=
  { hour_sin := Real.sin (2 * Real.pi * (hour : ℝ) / 24)
    hour_cos := Real.cos (2 * Real.pi * (hour : ℝ) / 24)
    day_sin := Real.sin (2 * Real.pi * (day_of_week : ℝ) / 7)
    day_cos := Real.cos (2 * Real.pi * (day_of_week : ℝ) / 7)
    is_morning_rush := trainMorningRush hour
    is_evening_rush := trainEveningRush hour
    is_night := trainNight hour
    is_weekend := trainWeekend day_of_week }

/-- Mean of a list of rationals (`np.mean` semantics; 0 on empty input,
which `StandardScaler.fit` never meets). -/
def meanQ (xs : List ℚ) : ℚ :=
  xs.sum / xs.length

/-- Population variance (`ddof = 0`, as `StandardScaler` uses). -/
def varQ (xs : List ℚ) : ℚ :=
  meanQ (xs.map (fun x => (x - meanQ xs) ^ 2))

/-- Column `j` of a row matrix. -/
def column (rows : List (List ℚ)) (j : ℕ) : List ℚ :=
  rows.map (fun r => r.getD j 0)

/-- Per-column means of a row matrix (the fitted `mean_`). -/
def colMeans (rows : List (List ℚ)) : List ℚ :=
  (List.range (rows.headD []).length).map (fun j => meanQ (column rows j))

/-- Per-column population variances of a row matrix (the fitted `var_`). -/
def colVars (rows : List (List ℚ)) : List ℚ :=
  (List.range (rows.headD []).length).map (fun j => varQ (column rows j))

/-- `StandardScaler().fit(rows)`: mean and variance are computed from
`rows` alone; `scale_` is the square root of the variance, taken through
the numeric square-root routine `sqrtv` the pipeline is parameterized
by (the claims do not depend on its value). -/
def fitScaler (sqrtv : ℚ → ℚ) (rows : List (List ℚ)) : Traffic.Scaler :=
  { mean := colMeans rows, scale := (colVars rows).map sqrtv }

/-- The scaling step of the training pipeline (`train_model.py` lines
75-78): fit the scaler with `fit_transform` on the training split, then
`transform` (no refitting) the validation and test splits with the same
fitted scaler. -/
def scalePipeline (sqrtv : ℚ → ℚ)
    (trainX valX testX : List (List ℚ)) :
    Traffic.Scaler × List (List ℚ) × List (List ℚ) × List (List ℚ) :=
  let s := fitScaler sqrtv trainX
  (s, s.transformAll trainX, s.transformAll valX, s.transformAll testX)

end Train

namespace Traffic

/-- A concrete environment for evaluating the handler: identity scaling
(mean 0, scale 1 for each of the 7 features), the four traffic classes,
and a model that always answers the probability vector
`[0.7, 0.1, 0.1, 0.1]`. -/
def sampleEnv : ServerEnv :=
  { scaler := { mean := [0, 0, 0, 0, 0, 0, 0], scale := [1, 1, 1, 1, 1, 1, 1] }
    classes := ["heavy", "high", "low", "normal"]
    model := fun _ => [7 / 10, 1 / 10, 1 / 10, 1 / 10] }

/-- The response `sampleEnv` produces for the single count 1. -/
def sampleResp : PredictResponse :=
  { prediction := "heavy"
    confidence := 70
    open_lane := true
    raw_count := 1
    scaled_count := 14.5
    hour := 17
    day_of_week := 4
    is_morning_rush := false
    is_evening_rush := true
    is_weekend := false }

end Traffic

namespace Claims

open Traffic Train

/-- Evaluation of the handler in the sample environment on the single
count 1, used to instantiate the hypotheses of the claim theorems. -/
lemma sampleEval : predictHandler sampleEnv (Except.ok ⟨[1], none, none⟩) =
    ⟨200, .success sampleResp⟩ := by
  show predictBody sampleEnv ⟨[1], none, none⟩ = _
  norm_num [predictBody, modelInput, sampleEnv, Scaler.transformRow, serverFeatures,
    okResponse, argmaxIdx, argmaxGo, labelDecode, pyRound, roundHalfEven, pyInt,
    sampleResp, current_hour, current_day, srvMorningRush, srvEveningRush, srvNight,
    srvWeekend]

/-- C1 (counterexample): a payload whose counts window has length 2 — a
legal window under the claim's "some length N" — is answered with a 400
error body, not a classification with a gate decision. -/
theorem c1_counterexample :
    predictHandler sampleEnv (Except.ok ⟨[5, 7], none, none⟩) =
      ⟨400, RespBody.err "Expected 1 vehicle count"⟩ :=
  rfl

/-- C1 (amended): only a counts window of length exactly 1 is served: for
it the handler derives the engineered features, standardizes them, runs
the model and answers 200 with the classification and gate decision; any
other window length is answered with a 400 error. -/
theorem c1_predict_length_one (env : ServerEnv) (c : ℚ) (hc dc : Option ℕ) :
    (predictHandler env (Except.ok ⟨[c], hc, dc⟩)).status = 200 ∧
    (predictHandler env (Except.ok ⟨[c], hc, dc⟩)).body =
      RespBody.success (okResponse env (env.model (modelInput env c)) c) ∧
    ∀ cs : List ℚ, cs.length ≠ 1 →
      predictHandler env (Except.ok ⟨cs, hc, dc⟩) =
        ⟨400, RespBody.err "Expected 1 vehicle count"⟩ := by
  refine ⟨rfl, rfl, ?_⟩
  intro cs hcs
  simp [predictHandler, predictBody, hcs]

/-- C1 (witness): the amended theorem instantiated at the sample
environment, the single count 2 and the empty window. -/
theorem c1_witness :
    (predictHandler sampleEnv (Except.ok ⟨[2], none, none⟩)).status = 200 ∧
    (predictHandler sampleEnv (Except.ok ⟨[2], none, none⟩)).body =
      RespBody.success (okResponse sampleEnv
        (sampleEnv.model (modelInput sampleEnv 2)) 2) ∧
    predictHandler sampleEnv (Except.ok ⟨([] : List ℚ), none, none⟩) =
      ⟨400, RespBody.err "Expected 1 vehicle count"⟩ := by
  obtain ⟨h1, h2, h3⟩ := c1_predict_length_one sampleEnv 2 none none
  exact ⟨h1, h2, h3 [] (by decide)⟩

/-- C2 (confirmed): in every successful response, `open_lane` is true
exactly when the decoded argmax label is `heavy` or `high`. -/
theorem c2_open_lane_iff (env : ServerEnv) (raw : Except String PredictRequest)
    (r : PredictResponse)
    (h : (predictHandler env raw).body = RespBody.success r) :
    r.open_lane = true ↔ (r.prediction = "heavy" ∨ r.prediction = "high") := by
  cases raw with
  | error e => simp [predictHandler] at h
  | ok req =>
    by_cases hl : req.counts.length = 1
    · have hb : predictHandler env (Except.ok req) =
          ⟨200, RespBody.success (okResponse env
            (env.model (modelInput env (req.counts.headD 0)))
            (req.counts.headD 0))⟩ := by
        show predictBody env req = _
        unfold predictBody
        rw [if_neg (fun hn => hn hl)]
      rw [hb] at h
      have hr : r = okResponse env
          (env.model (modelInput env (req.counts.headD 0)))
          (req.counts.headD 0) := (RespBody.success.inj h).symm
      subst hr
      simp [okResponse, labelDecode]
    · simp [predictHandler, predictBody, hl] at h

/-- C2 (witness): the open-lane equivalence evaluated in the sample
environment on the single count 1, where the decoded label is `heavy` and
the lane is opened. -/
theorem c2_witness :
    sampleResp.open_lane = true ↔
      (sampleResp.prediction = "heavy" ∨ sampleResp.prediction = "high") :=
  c2_open_lane_iff sampleEnv (Except.ok ⟨[1], none, none⟩) sampleResp
    (by rw [sampleEval])

/-- C3 (counterexample): the inference feature vector for the count 3
does not contain the raw count 3 (its first entry is the 14.5-scaled
count 43.5), refuting "alongside the raw count value"; nor does the
server compute any sin/cos encoding (see the amended theorem). -/
theorem c3_counterexample : ¬ ((3 : ℚ) ∈ serverFeatures 3) := by
  norm_num [serverFeatures, current_hour, current_day, srvMorningRush,
    srvEveningRush, srvNight, srvWeekend]

/-- C3 (amended): the server's inference feature vector is the
14.5-scaled count followed by the raw hour, raw day and the four
indicators — it carries no cyclical encodings and not the raw count; the
cyclical encodings `sin(2*pi*hour/24)` and `cos(2*pi*hour/24)` are
computed by the training script's `create_time_features` only. -/
theorem c3_amended (c : ℚ) (h d : ℤ) :
    (serverFeatures c).headD 0 = c * 14.5 ∧
    serverFeatures c = [c * 14.5, 17, 4, 0, 1, 0, 0] ∧
    (create_time_features h d).hour_sin = Real.sin (2 * Real.pi * (h : ℝ) / 24) ∧
    (create_time_features h d).hour_cos = Real.cos (2 * Real.pi * (h : ℝ) / 24) := by
  refine ⟨rfl, ?_, rfl, rfl⟩
  norm_num [serverFeatures, current_hour, current_day, srvMorningRush,
    srvEveningRush, srvNight, srvWeekend]

/-- C4 (confirmed): for every hour and weekday (in particular throughout
0-23 and 0-6), morning rush holds iff 7 <= hour <= 9, evening rush iff
16 <= hour <= 19, night iff hour >= 22 or hour < 4, weekend iff
weekday >= 5; the training script's indicators (with the spec-modelled
`config` thresholds) agree with the server's. -/
theorem c4_time_indicators (h d : ℤ) :
    (srvMorningRush h = 1 ↔ 7 ≤ h ∧ h ≤ 9) ∧
    (srvEveningRush h = 1 ↔ 16 ≤ h ∧ h ≤ 19) ∧
    (srvNight h = 1 ↔ 22 ≤ h ∨ h < 4) ∧
    (srvWeekend d = 1 ↔ 5 ≤ d) ∧
    trainMorningRush h = (srvMorningRush h : ℚ) ∧
    trainEveningRush h = (srvEveningRush h : ℚ) ∧
    trainNight h = (srvNight h : ℚ) ∧
    trainWeekend d = (srvWeekend d : ℚ) := by
  refine ⟨?_, ?_, ?_, ?_, ?_, ?_, ?_, ?_⟩ <;>
    simp only [srvMorningRush, srvEveningRush, srvNight, srvWeekend,
      trainMorningRush, trainEveningRush, trainNight, trainWeekend,
      RUSH_HOUR_MORNING, RUSH_HOUR_EVENING, NIGHT_TIME] <;>
    split_ifs <;> simp_all

/-- C5 (counterexample): for the window [5] (so the first observed value
is 5), the derived feature list has only 7 entries and does not contain
the value 5 — yet by the claim's own edge policy every lookback feature
(moving average, rolling std, lag) at series start equals the first
observed value, so none of those features is among the derived ones. -/
theorem c5_counterexample :
    (serverFeatures 5).length = 7 ∧ ¬ ((5 : ℚ) ∈ serverFeatures 5) := by
  refine ⟨rfl, ?_⟩
  norm_num [serverFeatures, current_hour, current_day, srvMorningRush,
    srvEveningRush, srvNight, srvWeekend]

/-- C5 (amended): the server derives no rolling-window, difference or lag
features at all: the accepted window has length exactly 1 (longer windows
are rejected with a 400), and the derived feature vector is exactly the
seven entries scaled count, hour, day and the four indicators; no NaN
can arise. -/
theorem c5_amended (env : ServerEnv) (c : ℚ) (cs : List ℚ)
    (hc dc : Option ℕ) (hlen : cs.length ≠ 1) :
    serverFeatures c = [c * 14.5, 17, 4, 0, 1, 0, 0] ∧
    (serverFeatures c).length = 7 ∧
    (predictHandler env (Except.ok ⟨cs, hc, dc⟩)).status = 400 := by
  refine ⟨?_, rfl, ?_⟩
  · norm_num [serverFeatures, current_hour, current_day, srvMorningRush,
      srvEveningRush, srvNight, srvWeekend]
  · simp [predictHandler, predictBody, hlen]

/-- C5 (witness): the amended theorem instantiated at the sample
environment, the count 5 and the rejected window [1, 2]. -/
theorem c5_witness :
    serverFeatures 5 = [(5 : ℚ) * 14.5, 17, 4, 0, 1, 0, 0] ∧
    (serverFeatures 5).length = 7 ∧
    (predictHandler sampleEnv (Except.ok ⟨[1, 2], none, none⟩)).status = 400 :=
  c5_amended sampleEnv 5 [1, 2] none none (by decide)

/-- C6 (confirmed): the probability vector of every successful response
is the model applied to the scaler-transformed feature row — the model
input is `scaler.transform` of the features, never the raw features. -/
theorem c6_standardized_before_inference (env : ServerEnv) (c : ℚ)
    (hc dc : Option ℕ) :
    modelInput env c = env.scaler.transformRow (serverFeatures c) ∧
    predictHandler env (Except.ok ⟨[c], hc, dc⟩) =
      ⟨200, RespBody.success (okResponse env
        (env.model (env.scaler.transformRow (serverFeatures c))) c)⟩ :=
  ⟨rfl, rfl⟩

/-- C7 (confirmed): every successful response reports hour 17 and weekday
4 — hence morning rush false, evening rush true, weekend false — and a
scaled count of 14.5 times the first count rounded to one decimal; the
optional time context of the payload never affects the response. -/
theorem c7_fixed_stats (env : ServerEnv) (req : PredictRequest)
    (r : PredictResponse)
    (h : (predictHandler env (Except.ok req)).body = RespBody.success r) :
    r.hour = 17 ∧ r.day_of_week = 4 ∧
    r.is_morning_rush = false ∧ r.is_evening_rush = true ∧
    r.is_weekend = false ∧
    r.scaled_count = pyRound (req.counts.headD 0 * 14.5) 1 ∧
    ∀ hc dc hc' dc' : Option ℕ,
      predictHandler env (Except.ok ⟨req.counts, hc, dc⟩) =
        predictHandler env (Except.ok ⟨req.counts, hc', dc'⟩) := by
  by_cases hl : req.counts.length = 1
  · have hb : predictHandler env (Except.ok req) =
        ⟨200, RespBody.success (okResponse env
          (env.model (modelInput env (req.counts.headD 0)))
          (req.counts.headD 0))⟩ := by
      show predictBody env req = _
      unfold predictBody
      rw [if_neg (fun hn => hn hl)]
    rw [hb] at h
    have hr : r = okResponse env
        (env.model (modelInput env (req.counts.headD 0)))
        (req.counts.headD 0) := (RespBody.success.inj h).symm
    subst hr
    exact ⟨rfl, rfl, rfl, rfl, rfl, rfl, fun _ _ _ _ => rfl⟩
  · simp [predictHandler, predictBody, hl] at h

/-- C7 (witness): the fixed-stats theorem evaluated in the sample
environment on the single count 1. -/
theorem c7_witness :
    sampleResp.hour = 17 ∧ sampleResp.day_of_week = 4 ∧
    sampleResp.is_morning_rush = false ∧ sampleResp.is_evening_rush = true ∧
    sampleResp.is_weekend = false ∧
    sampleResp.scaled_count = pyRound (([(1 : ℚ)].headD 0) * 14.5) 1 ∧
    ∀ hc dc hc' dc' : Option ℕ,
      predictHandler sampleEnv (Except.ok ⟨[1], hc, dc⟩) =
        predictHandler sampleEnv (Except.ok ⟨[1], hc', dc'⟩) :=
  c7_fixed_stats sampleEnv ⟨[1], none, none⟩ sampleResp (by rw [sampleEval])

/-- C8 (counterexample): the handler produces an error response that is
not the uncaught-exception-to-500 mapping: a counts window of length 2 is
answered with status 400 and an error body by an explicit validation. -/
theorem c8_counterexample :
    (predictHandler sampleEnv (Except.ok ⟨[1, 2], none, none⟩)).status = 400 ∧
    (predictHandler sampleEnv (Except.ok ⟨[1, 2], none, none⟩)).body =
      RespBody.err "Expected 1 vehicle count" ∧
    (400 : ℕ) ≠ 500 :=
  ⟨rfl, rfl, by decide⟩

/-- C8 (amended): an exception while handling the request is answered
with 500 and the error string; in addition the handler performs exactly
one explicit validation — a counts window whose length is not 1 is
answered with 400 and an error body — and every other request is answered
with 200 and the classification. -/
theorem c8_error_handling (env : ServerEnv) (e : String)
    (req : PredictRequest) :
    predictHandler env (Except.error e) = ⟨500, RespBody.err e⟩ ∧
    predictHandler env (Except.ok req) =
      (if req.counts.length = 1 then
        ⟨200, RespBody.success (okResponse env
          (env.model (modelInput env (req.counts.headD 0))) (req.counts.headD 0))⟩
      else ⟨400, RespBody.err "Expected 1 vehicle count"⟩) := by
  refine ⟨rfl, ?_⟩
  by_cases hl : req.counts.length = 1 <;> simp [predictHandler, predictBody, hl]

/-- C9 (confirmed): in the training pipeline's scaling step, the fitted
scaler's mean and variance come from the training split alone (changing
the validation or test split does not change the fitted scaler), and the
validation and test splits are transformed with that same fitted scaler,
with no refitting. -/
theorem c9_scaler_fit_on_train_only (sqrtv : ℚ → ℚ)
    (trainX valX valX' testX testX' : List (List ℚ)) :
    (scalePipeline sqrtv trainX valX testX).1 = fitScaler sqrtv trainX ∧
    (scalePipeline sqrtv trainX valX testX).1 =
      (scalePipeline sqrtv trainX valX' testX').1 ∧
    (fitScaler sqrtv trainX).mean = colMeans trainX ∧
    (fitScaler sqrtv trainX).scale = (colVars trainX).map sqrtv ∧
    (scalePipeline sqrtv trainX valX testX).2.2.1 =
      (fitScaler sqrtv trainX).transformAll valX ∧
    (scalePipeline sqrtv trainX valX testX).2.2.2 =
      (fitScaler sqrtv trainX).transformAll testX :=
  ⟨rfl, rfl, rfl, rfl, rfl, rfl⟩

/-- After a request the server state is unchanged. -/
lemma serve_state (st : ServerState)
    (reqs : List (Except String PredictRequest)) : (serve st reqs).2 = st := by
  induction reqs with
  | nil => rfl
  | cons r rs ih => simpa [serve, predictStep] using ih

/-- Each response in a served sequence is the handler of its own request
in the startup environment. -/
lemma serve_map (st : ServerState)
    (reqs : List (Except String PredictRequest)) :
    (serve st reqs).1 = reqs.map (predictHandler st.env) := by
  induction reqs with
  | nil => rfl
  | cons r rs ih => simpa [serve, predictStep] using ih

/-- C10 (confirmed): the handler is stateless — a request leaves the
startup state (model, scaler, label encoder, config) unchanged, so over
any sequence of requests the final state is the initial one and every
response is the handler of its own request alone, independent of the
other requests. -/
theorem c10_stateless (st : ServerState) (raw : Except String PredictRequest)
    (reqs : List (Except String PredictRequest)) :
    (predictStep st raw).2 = st ∧
    (serve st reqs).2 = st ∧
    (serve st reqs).1 = reqs.map (predictHandler st.env) :=
  ⟨rfl, serve_state st reqs, serve_map st reqs⟩

end Claims
